import Mathlib

/-!
Verification of the container lifecycle reconciler in `src/container.rs`
(`Container::run`, `Container::end` and their helpers), embedded shallowly:
the Docker client is a fake with configured responses, and each operation is
a pure function returning the trace of runtime calls it issued, the log
messages it emitted, and its outcome (normal return, `std::process::exit(1)`
after an error message, or a panic from an unchecked `unwrap`).
-/

namespace Ruku

/-- The fields of bollard `ContainerSummary` that `container.rs` reads:
`id` and `state`, both optional. -/
structure ContainerSummary where
  id : Option String
  state : Option String
deriving DecidableEq, Repr

/-- bollard `ContainerStateStatusEnum`. -/
inductive ContainerStateStatusEnum where
  | EMPTY
  | CREATED
  | RUNNING
  | PAUSED
  | RESTARTING
  | REMOVING
  | EXITED
  | DEAD
deriving DecidableEq, Repr

/-- bollard `FromStr for ContainerStateStatusEnum`: the empty string is
`EMPTY`, the eight daemon status words map to their variants, and any other
string is an error (`none`). -/
def ContainerStateStatusEnum.from_str : String → Option ContainerStateStatusEnum
  | "" => some .EMPTY
  | "created" => some .CREATED
  | "running" => some .RUNNING
  | "paused" => some .PAUSED
  | "restarting" => some .RESTARTING
  | "removing" => some .REMOVING
  | "exited" => some .EXITED
  | "dead" => some .DEAD
  | _ => none

/-- Modelled from the spec: `crate::model::RukuConfig` is not under `src/`;
§6 gives the configuration input as `{ version: string, port: integer }`. -/
structure RukuConfig where
  version : String
  port : Nat
deriving DecidableEq, Repr

/-- Modelled from the spec: `crate::misc::get_image_name_with_version` is not
under `src/`; §4.4 says the Desired Spec Builder, given a base name and a
version string, produces a fully qualified image reference `name:version`. -/
def get_image_name_with_version (name version : String) : String :=
  name ++ ":" ++ version

/-- The container-creation configuration `Container::create` builds: the image
reference, the exposed container port `"{port}/tcp"`, and the identical host
bind port. -/
structure CreateConfig where
  image : String
  exposedPort : String
  hostPort : String
deriving DecidableEq, Repr

/-- The create config built from `RukuConfig` in `Container::create`. -/
def createConfig (config : RukuConfig) (image : String) : CreateConfig :=
  ⟨image, toString config.port ++ "/tcp", toString config.port⟩

/-- A call made against the Docker runtime client, with the arguments
`container.rs` passes. -/
inductive RtCall where
  | listContainers (all : Bool) (limit : Option Nat) (nameFilter : String)
  | stopContainer (id : String)
  | removeContainer (id : String)
  | createContainer (name : String) (cfg : CreateConfig)
  | startContainer (id : String)
deriving DecidableEq, Repr

/-- A message emitted through the logger: `log.error` or `log.step`. -/
inductive LogMsg where
  | error (msg : String)
  | step (msg : String)
deriving DecidableEq, Repr

/-- Fake Docker runtime client: the configured response of each of the five
operations `container.rs` uses. `none` / `false` means the call fails. -/
structure Docker where
  listResult : Option (List ContainerSummary)
  stopOk : Bool
  removeOk : Bool
  createResult : Option String
  startOk : Bool
deriving DecidableEq, Repr

/-- Accumulated observable behaviour: runtime calls issued (in order) and log
messages emitted (in order). -/
structure St where
  calls : List RtCall
  logs : List LogMsg
deriving DecidableEq, Repr

def St.empty : St := ⟨[], []⟩

def St.call (s : St) (c : RtCall) : St := ⟨s.calls ++ [c], s.logs⟩

def St.log (s : St) (m : LogMsg) : St := ⟨s.calls, s.logs ++ [m]⟩

/-- How an operation ends: normal return, `std::process::exit(1)` (always
preceded by a `log.error`), or a panic from an unchecked `unwrap` (no
message). -/
inductive Outcome where
  | ok
  | exit1
  | panic
deriving DecidableEq, Repr

/-- The `Container` struct of `container.rs`, minus the logger (log output is
part of the trace) and with the Docker handle replaced by the fake client. -/
structure Container where
  name : String
  docker : Docker
  config : RukuConfig
deriving DecidableEq, Repr

/-- `Container::stop`: stop the container; on failure log
"Failed to stop container" and exit(1); on success log the step. -/
def Container.stop (c : Container) (s : St) (container_id : String) :
    St × Except Outcome Unit :=
  let s := s.call (.stopContainer container_id)
  if c.docker.stopOk then
    (s.log (.step ("Stopped container with id: " ++ container_id)), .ok ())
  else
    (s.log (.error "Failed to stop container"), .error .exit1)

/-- `Container::remove`: remove the container; on failure log
"Failed to remove container" and exit(1); on success log the step. -/
def Container.remove (c : Container) (s : St) (container_id : String) :
    St × Except Outcome Unit :=
  let s := s.call (.removeContainer container_id)
  if c.docker.removeOk then
    (s.log (.step ("Removed container with id: " ++ container_id)), .ok ())
  else
    (s.log (.error "Failed to remove container"), .error .exit1)

/-- `Container::start`: start the container; on failure log
"Failed to start container" and exit(1); on success log the step. -/
def Container.start (c : Container) (s : St) (container_id : String) :
    St × Except Outcome Unit :=
  let s := s.call (.startContainer container_id)
  if c.docker.startOk then
    (s.log (.step ("Started container with id: " ++ container_id)), .ok ())
  else
    (s.log (.error "Failed to start container"), .error .exit1)

/-- `Container::stop_and_remove`: stop then remove, strictly sequential;
a stop failure prevents the remove. -/
def Container.stop_and_remove (c : Container) (s : St) (container_id : String) :
    St × Except Outcome Unit :=
  match c.stop s container_id with
  | (s, .error o) => (s, .error o)
  | (s, .ok _) => c.remove s container_id

/-- `Container::get`: list containers with `all: true`, `limit: Some(1)` and a
name filter; on failure log "Failed to list containers" and exit(1); otherwise
return the first summary, if any. -/
def Container.get (c : Container) (s : St) :
    St × Except Outcome (Option ContainerSummary) :=
  let s := s.call (.listContainers true (some 1) c.name)
  match c.docker.listResult with
  | some containers => (s, .ok containers.head?)
  | none => (s.log (.error "Failed to list containers"), .error .exit1)

/-- `Container::create`: create a container named `c.name` from the given
image with the port bindings of `createConfig`; on failure log
"Failed to create container" and exit(1); on success log the step and return
the id of the new container. -/
def Container.create (c : Container) (s : St) (image_name : String) :
    St × Except Outcome String :=
  let s := s.call (.createContainer c.name (createConfig c.config image_name))
  match c.docker.createResult with
  | some cid =>
      (s.log (.step ("Created container with id: " ++ cid)), .ok cid)
  | none =>
      (s.log (.error "Failed to create container"), .error .exit1)

/-- `Container::run`: reconcile. Inspect the observed container; if present,
unwrap id and state (exit(1) with a message when missing), parse the status
with an unchecked `unwrap` (panic on an unrecognized string), branch on the
status for the corrective action, then create from the desired image and
start. If absent, just create and start. -/
def Container.run (c : Container) : St × Outcome :=
  let image_name_with_version := get_image_name_with_version c.name c.config.version
  match c.get St.empty with
  | (s, .error o) => (s, o)
  | (s, .ok none) =>
      match c.create s image_name_with_version with
      | (s, .error o) => (s, o)
      | (s, .ok new_id) =>
          match c.start s new_id with
          | (s, .error o) => (s, o)
          | (s, .ok _) => (s, .ok)
  | (s, .ok (some container)) =>
      match container.id with
      | none => (s.log (.error "Failed to get container id"), .exit1)
      | some container_id =>
        match container.state with
        | none => (s.log (.error "Failed to get container state"), .exit1)
        | some container_state =>
          match ContainerStateStatusEnum.from_str container_state with
          | none => (s, .panic)
          | some status =>
            let afterCorrective :=
              match status with
              | .EMPTY => (s, Except.ok ())
              | .RUNNING | .RESTARTING => c.stop_and_remove s container_id
              | .REMOVING => (s, Except.ok ())
              | .CREATED | .PAUSED | .EXITED | .DEAD => c.remove s container_id
            match afterCorrective with
            | (s, .error o) => (s, o)
            | (s, .ok _) =>
                match c.create s image_name_with_version with
                | (s, .error o) => (s, o)
                | (s, .ok new_id) =>
                    match c.start s new_id with
                    | (s, .error o) => (s, o)
                    | (s, .ok _) => (s, .ok)

/-- `Container::end`: inspect; if present, unwrap id (exit(1) with a message
when missing; the state is never read) and `stop_and_remove`; if absent, log
"No application is running" and return normally. -/
def Container.«end» (c : Container) : St × Outcome :=
  match c.get St.empty with
  | (s, .error o) => (s, o)
  | (s, .ok none) => (s.log (.error "No application is running"), .ok)
  | (s, .ok (some container)) =>
      match container.id with
      | none => (s.log (.error "Failed to get container id"), .exit1)
      | some container_id =>
          match c.stop_and_remove s container_id with
          | (s, .error o) => (s, o)
          | (s, .ok _) => (s, .ok)

/-- Lifecycle calls are stop/remove/create/start; listing is inspection, not a
lifecycle call. -/
def RtCall.isLifecycle : RtCall → Bool
  | .listContainers _ _ _ => false
  | _ => true

def lifecycle (calls : List RtCall) : List RtCall :=
  calls.filter RtCall.isLifecycle

def RtCall.isStop : RtCall → Bool
  | .stopContainer _ => true
  | _ => false

def RtCall.isRemove : RtCall → Bool
  | .removeContainer _ => true
  | _ => false

def RtCall.isCreate : RtCall → Bool
  | .createContainer _ _ => true
  | _ => false

def RtCall.isStart : RtCall → Bool
  | .startContainer _ => true
  | _ => false

/-- Scans a call trace left to right: true iff every create call is preceded
(earlier in the trace) by a remove of container `cid`. The accumulator records
whether such a remove has already been seen. -/
def everyCreatePrecededByRemove (cid : String) : Bool → List RtCall → Bool
  | _, [] => true
  | seen, .createContainer _ _ :: rest =>
      seen && everyCreatePrecededByRemove cid seen rest
  | seen, .removeContainer i :: rest =>
      everyCreatePrecededByRemove cid (seen || (i == cid)) rest
  | seen, _ :: rest => everyCreatePrecededByRemove cid seen rest

/-- True iff no call appears in the trace after the first call satisfying
`p`: a failing call is the last thing the operation does. -/
def noneAfter (p : RtCall → Bool) : List RtCall → Bool
  | [] => true
  | x :: rest => if p x then rest.isEmpty else noneAfter p rest

end Ruku

namespace Ruku

/-- C10: for an observed container whose status string is not one of the
recognized variants (here "bogus"), `run` aborts via the unchecked `unwrap` of
the status-parse result — a panic — with no error message emitted and before
any lifecycle call. -/
theorem C10_unrecognized_status_panics :
    (Container.run ⟨"app", ⟨some [⟨some "old", some "bogus"⟩], true, true, some "new", true⟩,
        ⟨"1", 80⟩⟩).2 = Outcome.panic ∧
    (Container.run ⟨"app", ⟨some [⟨some "old", some "bogus"⟩], true, true, some "new", true⟩,
        ⟨"1", 80⟩⟩).1.logs = [] ∧
    lifecycle (Container.run ⟨"app", ⟨some [⟨some "old", some "bogus"⟩], true, true, some "new", true⟩,
        ⟨"1", 80⟩⟩).1.calls = [] := by
  decide

/-- C1: when the observed container has status Running or Restarting and every
runtime call succeeds, `run` performs exactly stop, remove, create (with the
desired image reference), start — in that order, with no other lifecycle
calls — and returns normally. -/
theorem C1_active_recreate_sequence (c : Container) (cont : ContainerSummary)
    (cid st nid : String)
    (hlist : c.docker.listResult = some [cont])
    (hid : cont.id = some cid)
    (hst : cont.state = some st)
    (hstatus : ContainerStateStatusEnum.from_str st = some .RUNNING ∨
      ContainerStateStatusEnum.from_str st = some .RESTARTING)
    (hstop : c.docker.stopOk = true)
    (hremove : c.docker.removeOk = true)
    (hcreate : c.docker.createResult = some nid)
    (hstart : c.docker.startOk = true) :
    lifecycle (Container.run c).1.calls =
      [.stopContainer cid, .removeContainer cid,
       .createContainer c.name
         (createConfig c.config (get_image_name_with_version c.name c.config.version)),
       .startContainer nid] ∧
    (Container.run c).2 = .ok := by
  rcases hstatus with h | h <;>
  simp [Container.run, Container.get, Container.stop_and_remove, Container.stop,
    Container.remove, Container.create, Container.start, St.empty, St.call, St.log,
    lifecycle, RtCall.isLifecycle, hlist, hid, hst, h, hstop, hremove, hcreate, hstart]

/-- C1 witness: the sequence at a concrete running container. -/
theorem C1_active_recreate_sequence_witness :
    lifecycle (Container.run ⟨"app", ⟨some [⟨some "old", some "running"⟩], true, true,
        some "new", true⟩, ⟨"1", 80⟩⟩).1.calls =
      [.stopContainer "old", .removeContainer "old",
       .createContainer "app" (createConfig ⟨"1", 80⟩ (get_image_name_with_version "app" "1")),
       .startContainer "new"] ∧
    (Container.run ⟨"app", ⟨some [⟨some "old", some "running"⟩], true, true,
        some "new", true⟩, ⟨"1", 80⟩⟩).2 = .ok :=
  C1_active_recreate_sequence _ _ "old" "running" "new" rfl rfl rfl (Or.inl rfl)
    rfl rfl rfl rfl

end Ruku

namespace Ruku

/-- C2 counterexample: with an observed container of status `removing`, `run`
issues a create call with no remove call anywhere before it (indeed no remove
at all), while the old container still exists. -/
theorem C2_counterexample_removing :
    (Container.run ⟨"app", ⟨some [⟨some "old", some "removing"⟩], true, true, some "new", true⟩,
        ⟨"1", 80⟩⟩).1.calls.any RtCall.isCreate = true ∧
    (Container.run ⟨"app", ⟨some [⟨some "old", some "removing"⟩], true, true, some "new", true⟩,
        ⟨"1", 80⟩⟩).1.calls.any RtCall.isRemove = false := by
  decide

/-- C2 amended: for an observed container with any recognized status other
than `Empty` and `Removing`, every create call `run` issues is preceded by the
removal of the observed container; for `Empty`/`Removing` the create is issued
without prior removal (the documented §4.2 hazard). -/
theorem C2_no_create_while_old_exists (c : Container) (cont : ContainerSummary)
    (cid st : String) (status : ContainerStateStatusEnum)
    (hlist : c.docker.listResult = some [cont])
    (hid : cont.id = some cid)
    (hst : cont.state = some st)
    (hstatus : ContainerStateStatusEnum.from_str st = some status)
    (hne : status ≠ .EMPTY) (hnr : status ≠ .REMOVING) :
    everyCreatePrecededByRemove cid false (Container.run c).1.calls = true := by
  cases status <;> first
  | exact absurd rfl hne
  | exact absurd rfl hnr
  | cases hso : c.docker.stopOk <;> cases hro : c.docker.removeOk <;>
    cases hcr : c.docker.createResult <;> cases hsto : c.docker.startOk <;>
    simp [Container.run, Container.get, Container.stop_and_remove, Container.stop,
      Container.remove, Container.create, Container.start, St.empty, St.call, St.log,
      everyCreatePrecededByRemove, hlist, hid, hst, hstatus, hso, hro, hcr, hsto]

/-- C2 witness: the amended statement at a concrete running container. -/
theorem C2_no_create_while_old_exists_witness :
    everyCreatePrecededByRemove "old" false
      (Container.run ⟨"app", ⟨some [⟨some "old", some "running"⟩], true, true,
        some "new", true⟩, ⟨"1", 80⟩⟩).1.calls = true :=
  C2_no_create_while_old_exists _ _ "old" "running" .RUNNING rfl rfl rfl rfl
    (by decide) (by decide)

/-- C3: with all runtime calls succeeding, for an observed status in
{Created, Paused, Exited, Dead} `run` performs remove (no stop) then create
and start; for Empty/Removing it performs create and start with zero prior
corrective calls. -/
theorem C3_nonactive_statuses (c : Container) (cont : ContainerSummary)
    (cid st nid : String)
    (hlist : c.docker.listResult = some [cont])
    (hid : cont.id = some cid)
    (hst : cont.state = some st)
    (hcreate : c.docker.createResult = some nid)
    (hstart : c.docker.startOk = true) :
    ((ContainerStateStatusEnum.from_str st = some .CREATED ∨
      ContainerStateStatusEnum.from_str st = some .PAUSED ∨
      ContainerStateStatusEnum.from_str st = some .EXITED ∨
      ContainerStateStatusEnum.from_str st = some .DEAD) →
      c.docker.removeOk = true →
      lifecycle (Container.run c).1.calls =
        [.removeContainer cid,
         .createContainer c.name
           (createConfig c.config (get_image_name_with_version c.name c.config.version)),
         .startContainer nid]) ∧
    ((ContainerStateStatusEnum.from_str st = some .EMPTY ∨
      ContainerStateStatusEnum.from_str st = some .REMOVING) →
      lifecycle (Container.run c).1.calls =
        [.createContainer c.name
           (createConfig c.config (get_image_name_with_version c.name c.config.version)),
         .startContainer nid]) := by
  constructor
  · intro h hro
    rcases h with h | h | h | h <;>
    simp [Container.run, Container.get, Container.stop_and_remove, Container.stop,
      Container.remove, Container.create, Container.start, St.empty, St.call, St.log,
      lifecycle, RtCall.isLifecycle, hlist, hid, hst, h, hro, hcreate, hstart]
  · intro h
    rcases h with h | h <;>
    simp [Container.run, Container.get, Container.stop_and_remove, Container.stop,
      Container.remove, Container.create, Container.start, St.empty, St.call, St.log,
      lifecycle, RtCall.isLifecycle, hlist, hid, hst, h, hcreate, hstart]

/-- C3 witness: the remove-then-create-start sequence at a concrete exited
container. -/
theorem C3_nonactive_statuses_witness :
    lifecycle (Container.run ⟨"app", ⟨some [⟨some "old", some "exited"⟩], true, true,
        some "new", true⟩, ⟨"1", 80⟩⟩).1.calls =
      [.removeContainer "old",
       .createContainer "app" (createConfig ⟨"1", 80⟩ (get_image_name_with_version "app" "1")),
       .startContainer "new"] :=
  (C3_nonactive_statuses _ _ "old" "exited" "new" rfl rfl rfl rfl rfl).1
    (Or.inr (Or.inr (Or.inl rfl))) rfl

/-- C4: when the State Inspector reports no matching container, `run` never
issues a stop or remove call (under any failure configuration), and when
create and start succeed it performs exactly create then start. -/
theorem C4_absent_fast_path (c : Container)
    (hlist : c.docker.listResult = some []) :
    (Container.run c).1.calls.any RtCall.isStop = false ∧
    (Container.run c).1.calls.any RtCall.isRemove = false ∧
    (∀ nid, c.docker.createResult = some nid → c.docker.startOk = true →
      lifecycle (Container.run c).1.calls =
        [.createContainer c.name
           (createConfig c.config (get_image_name_with_version c.name c.config.version)),
         .startContainer nid] ∧
      (Container.run c).2 = .ok) := by
  refine ⟨?_, ?_, ?_⟩
  · cases hcr : c.docker.createResult <;> cases hsto : c.docker.startOk <;>
    simp [Container.run, Container.get, Container.create, Container.start,
      St.empty, St.call, St.log, RtCall.isStop, hlist, hcr, hsto]
  · cases hcr : c.docker.createResult <;> cases hsto : c.docker.startOk <;>
    simp [Container.run, Container.get, Container.create, Container.start,
      St.empty, St.call, St.log, RtCall.isRemove, hlist, hcr, hsto]
  · intro nid hcr hsto
    simp [Container.run, Container.get, Container.create, Container.start,
      St.empty, St.call, St.log, lifecycle, RtCall.isLifecycle, hlist, hcr, hsto]

/-- C4 witness: the fast path at a concrete absent container. -/
theorem C4_absent_fast_path_witness :
    (Container.run ⟨"app", ⟨some [], true, true, some "new", true⟩,
        ⟨"1", 80⟩⟩).1.calls.any RtCall.isStop = false ∧
    lifecycle (Container.run ⟨"app", ⟨some [], true, true, some "new", true⟩,
        ⟨"1", 80⟩⟩).1.calls =
      [.createContainer "app" (createConfig ⟨"1", 80⟩ (get_image_name_with_version "app" "1")),
       .startContainer "new"] :=
  ⟨(C4_absent_fast_path _ rfl).1,
   ((C4_absent_fast_path _ rfl).2.2 "new" rfl rfl).1⟩

end Ruku

namespace Ruku

set_option maxHeartbeats 2000000 in
/-- C5: a failing runtime call short-circuits `run`: if create is configured
to fail, start is never invoked; and whenever stop, remove or start is
configured to fail, no call of any kind follows the first such call in the
trace — the operation aborts with no rollback of prior steps. -/
theorem C5_failure_short_circuits (c : Container) :
    (c.docker.createResult = none →
      (Container.run c).1.calls.any RtCall.isStart = false) ∧
    (c.docker.stopOk = false →
      noneAfter RtCall.isStop (Container.run c).1.calls = true) ∧
    (c.docker.removeOk = false →
      noneAfter RtCall.isRemove (Container.run c).1.calls = true) ∧
    (c.docker.startOk = false →
      noneAfter RtCall.isStart (Container.run c).1.calls = true) := by
  obtain ⟨nm, ⟨lr, so, ro, cr, sto⟩, cfg⟩ := c
  refine ⟨?_, ?_, ?_, ?_⟩ <;> intro h
  all_goals rcases lr with _ | (_ | ⟨⟨_ | cid, _ | st⟩, rest⟩)
  all_goals cases so <;> cases ro <;> cases cr <;> cases sto
  all_goals simp_all [Container.run, Container.get, Container.stop_and_remove,
    Container.stop, Container.remove, Container.create, Container.start,
    St.empty, St.call, St.log, noneAfter, RtCall.isStop, RtCall.isRemove,
    RtCall.isStart]
  all_goals rcases hfs : ContainerStateStatusEnum.from_str st with _ | status
  all_goals try cases status
  all_goals simp_all [Container.run, Container.get, Container.stop_and_remove,
    Container.stop, Container.remove, Container.create, Container.start,
    St.empty, St.call, St.log, noneAfter, RtCall.isStop, RtCall.isRemove,
    RtCall.isStart]

/-- C5 witness: with create configured to fail against a running container,
start is never invoked. -/
theorem C5_failure_short_circuits_witness :
    (Container.run ⟨"app", ⟨some [⟨some "old", some "running"⟩], true, true, none, true⟩,
        ⟨"1", 80⟩⟩).1.calls.any RtCall.isStart = false :=
  (C5_failure_short_circuits _).1 rfl

/-- C6: for every present observed container (no branching on its status,
which `end` never reads), `end` never issues a create or start call, and when
stop and remove succeed it performs exactly stop then remove, in that order,
and returns normally. -/
theorem C6_end_teardown (c : Container) (cont : ContainerSummary) (cid : String)
    (hlist : c.docker.listResult = some [cont])
    (hid : cont.id = some cid) :
    (Container.«end» c).1.calls.any RtCall.isCreate = false ∧
    (Container.«end» c).1.calls.any RtCall.isStart = false ∧
    (c.docker.stopOk = true → c.docker.removeOk = true →
      lifecycle (Container.«end» c).1.calls =
        [.stopContainer cid, .removeContainer cid] ∧
      (Container.«end» c).2 = .ok) := by
  refine ⟨?_, ?_, ?_⟩
  · cases hso : c.docker.stopOk <;> cases hro : c.docker.removeOk <;>
    simp [Container.«end», Container.get, Container.stop_and_remove, Container.stop,
      Container.remove, St.empty, St.call, St.log, RtCall.isCreate, hlist, hid, hso, hro]
  · cases hso : c.docker.stopOk <;> cases hro : c.docker.removeOk <;>
    simp [Container.«end», Container.get, Container.stop_and_remove, Container.stop,
      Container.remove, St.empty, St.call, St.log, RtCall.isStart, hlist, hid, hso, hro]
  · intro hso hro
    simp [Container.«end», Container.get, Container.stop_and_remove, Container.stop,
      Container.remove, St.empty, St.call, St.log, lifecycle, RtCall.isLifecycle,
      hlist, hid, hso, hro]

/-- C6 witness: teardown at a concrete running container. -/
theorem C6_end_teardown_witness :
    (Container.«end» ⟨"app", ⟨some [⟨some "old", some "running"⟩], true, true,
        some "new", true⟩, ⟨"1", 80⟩⟩).1.calls.any RtCall.isCreate = false ∧
    lifecycle (Container.«end» ⟨"app", ⟨some [⟨some "old", some "running"⟩], true, true,
        some "new", true⟩, ⟨"1", 80⟩⟩).1.calls =
      [.stopContainer "old", .removeContainer "old"] :=
  ⟨(C6_end_teardown _ _ "old" rfl rfl).1,
   ((C6_end_teardown _ _ "old" rfl rfl).2.2 rfl rfl).1⟩

/-- C7: when no matching container exists, `end` performs zero lifecycle
calls, reports "No application is running", and returns normally (no
`exit(1)`, no panic) — the condition is reportable, not fatal. -/
theorem C7_end_absent_not_error (c : Container)
    (hlist : c.docker.listResult = some []) :
    lifecycle (Container.«end» c).1.calls = [] ∧
    (Container.«end» c).2 = .ok ∧
    (Container.«end» c).1.logs = [.error "No application is running"] := by
  simp [Container.«end», Container.get, St.empty, St.call, St.log, lifecycle,
    RtCall.isLifecycle, hlist]

/-- C7 witness: the absent-teardown behaviour at a concrete client. -/
theorem C7_end_absent_not_error_witness :
    lifecycle (Container.«end» ⟨"app", ⟨some [], true, true, some "new", true⟩,
        ⟨"1", 80⟩⟩).1.calls = [] ∧
    (Container.«end» ⟨"app", ⟨some [], true, true, some "new", true⟩,
        ⟨"1", 80⟩⟩).2 = .ok ∧
    (Container.«end» ⟨"app", ⟨some [], true, true, some "new", true⟩,
        ⟨"1", 80⟩⟩).1.logs = [.error "No application is running"] :=
  C7_end_absent_not_error _ rfl

/-- C8 counterexample: `end`, given a summary with an id but no status string,
does not treat the missing status as fatal: it proceeds to stop and remove and
returns normally. -/
theorem C8_counterexample_end_missing_state :
    (Container.«end» ⟨"app", ⟨some [⟨some "old", none⟩], true, true, some "new", true⟩,
        ⟨"1", 80⟩⟩).2 = Outcome.ok ∧
    lifecycle (Container.«end» ⟨"app", ⟨some [⟨some "old", none⟩], true, true, some "new", true⟩,
        ⟨"1", 80⟩⟩).1.calls = [.stopContainer "old", .removeContainer "old"] := by
  decide

/-- C8 amended: `run` treats a summary lacking an id, or lacking a status
string, as fatal — the error is reported and it aborts before any lifecycle
call; `end` does the same for a missing id, but never reads the status. -/
theorem C8_missing_fields_fatal (c : Container) (cont : ContainerSummary)
    (hlist : c.docker.listResult = some [cont]) :
    (cont.id = none →
      lifecycle (Container.run c).1.calls = [] ∧ (Container.run c).2 = .exit1 ∧
      (Container.run c).1.logs = [.error "Failed to get container id"] ∧
      lifecycle (Container.«end» c).1.calls = [] ∧ (Container.«end» c).2 = .exit1 ∧
      (Container.«end» c).1.logs = [.error "Failed to get container id"]) ∧
    (∀ cid, cont.id = some cid → cont.state = none →
      lifecycle (Container.run c).1.calls = [] ∧ (Container.run c).2 = .exit1 ∧
      (Container.run c).1.logs = [.error "Failed to get container state"]) := by
  constructor
  · intro hid
    simp [Container.run, Container.«end», Container.get, St.empty, St.call, St.log,
      lifecycle, RtCall.isLifecycle, hlist, hid]
  · intro cid hid hst
    simp [Container.run, Container.get, St.empty, St.call, St.log, lifecycle,
      RtCall.isLifecycle, hlist, hid, hst]

/-- C8 witness: the amended statement at a concrete summary with no id. -/
theorem C8_missing_fields_fatal_witness :
    lifecycle (Container.run ⟨"app", ⟨some [⟨none, some "running"⟩], true, true,
        some "new", true⟩, ⟨"1", 80⟩⟩).1.calls = [] ∧
    (Container.run ⟨"app", ⟨some [⟨none, some "running"⟩], true, true,
        some "new", true⟩, ⟨"1", 80⟩⟩).2 = .exit1 ∧
    (Container.run ⟨"app", ⟨some [⟨none, some "running"⟩], true, true,
        some "new", true⟩, ⟨"1", 80⟩⟩).1.logs = [.error "Failed to get container id"] ∧
    lifecycle (Container.«end» ⟨"app", ⟨some [⟨none, some "running"⟩], true, true,
        some "new", true⟩, ⟨"1", 80⟩⟩).1.calls = [] ∧
    (Container.«end» ⟨"app", ⟨some [⟨none, some "running"⟩], true, true,
        some "new", true⟩, ⟨"1", 80⟩⟩).2 = .exit1 ∧
    (Container.«end» ⟨"app", ⟨some [⟨none, some "running"⟩], true, true,
        some "new", true⟩, ⟨"1", 80⟩⟩).1.logs = [.error "Failed to get container id"] :=
  (C8_missing_fields_fatal _ _ rfl).1 rfl

/-- C9: the State Inspector query always requests the "all" listing mode
with a limit of one result, filtered by the target name; and whenever the
listing succeeds it returns its first element — absent exactly when the
listing holds zero matches. -/
theorem C9_get_query (c : Container) (s : St) :
    (Container.get c s).1.calls = s.calls ++ [.listContainers true (some 1) c.name] ∧
    (∀ l, c.docker.listResult = some l →
      (Container.get c s).2 = Except.ok l.head? ∧
      ((Container.get c s).2 = Except.ok none ↔ l = [])) := by
  constructor
  · cases hlr : c.docker.listResult <;>
    simp [Container.get, St.call, St.log, hlr]
  · intro l hlr
    refine ⟨by simp [Container.get, St.call, hlr], ?_⟩
    cases l <;> simp [Container.get, St.call, hlr]

/-- C9 witness: the query shape at a concrete client with an empty listing. -/
theorem C9_get_query_witness :
    (Container.get ⟨"app", ⟨some [], true, true, some "new", true⟩, ⟨"1", 80⟩⟩
        St.empty).1.calls = St.empty.calls ++ [.listContainers true (some 1) "app"] ∧
    (Container.get ⟨"app", ⟨some [], true, true, some "new", true⟩, ⟨"1", 80⟩⟩
        St.empty).2 = Except.ok (([] : List ContainerSummary).head?) :=
  ⟨(C9_get_query _ _).1, ((C9_get_query _ _).2 [] rfl).1⟩

end Ruku
